import Mathlib

/-
Shallow embedding of the Financial Metric Derivation & Classification Engine
of the stock-analysis dashboard:

  * `src/finance/analysis_formulas.py`   — metric formulas and the classifier
  * `src/finance/config/analysis_config.py` — the static threshold table
  * `src/finance/analysis/analysis_utils.py` — `safe_val` and `format_cell`
  * `src/finance/analysis/analysis_tables/analysis_table_balance.py`
  * `src/finance/analysis/analysis_tables/analysis_table_income.py`
  * `src/finance/analysis/analysis_tables/analysis_table_cashflow.py`

Numeric values are modelled as exact rationals (`ℚ`); the one genuinely real
computation, `ratio ** (1.0/3.0)` in `compute_cagr_3y`, is modelled with the
real power function `Real.rpow`.  Python `None` is `Option.none`; a Python
expression that raises an uncaught exception is modelled in the `Except`
monad, the message naming the exception class.
-/

namespace StockAnalysis

/-- The color classification labels returned by `classify_metric`. -/
inductive Classification : Type where
  | green : Classification
  | yellow : Classification
  | red : Classification
  | gray : Classification
deriving DecidableEq

/-- One non-`None` entry of `ANALYSIS_THRESHOLDS`: a dict with keys
`excellent`, `good` and the optional key `inverted`.  The dict access
`thresholds.get ("inverted", False)` in the source defaults the flag to
`False`, which is modelled by storing `false` for entries that omit it. -/
structure ThresholdSpec (α : Type) where
  excellent : α
  good : α
  inverted : Bool
deriving DecidableEq

/-- `compute_growth_1y` of `analysis_formulas.py`:
`None` if an operand is `None` or `value_prev == 0`, else
`((value_now - value_prev) / abs(value_prev)) * 100.0`. -/
def compute_growth_1y (value_now value_prev : Option ℚ) : Option ℚ :=
  match value_now, value_prev with
  | some now, some prev =>
      if prev = 0 then none else some (((now - prev) / |prev|) * 100)
  | _, _ => none

/-- `compute_cagr_3y` of `analysis_formulas.py`:
`None` if an operand is `None` or `value_3yr == 0`, else
`ratio = abs(value_now) / abs(value_3yr)` followed by
`(ratio ** (1.0/3.0) - 1.0) * 100.0`. -/
noncomputable def compute_cagr_3y (value_now value_3yr : Option ℚ) : Option ℝ :=
  match value_now, value_3yr with
  | some now, some past =>
      if past = 0 then none
      else
        let ratio : ℚ := |now| / |past|
        some (((ratio : ℝ) ^ ((1 : ℝ) / 3) - 1) * 100)
  | _, _ => none

/-- `compute_margin` of `analysis_formulas.py`:
`None` if an operand is `None` or the denominator is `0`, else
`(value_numerator / abs(value_denominator)) * 100.0`. -/
def compute_margin (value_numerator value_denominator : Option ℚ) : Option ℚ :=
  match value_numerator, value_denominator with
  | some num, some den =>
      if den = 0 then none else some ((num / |den|) * 100)
  | _, _ => none

/-- `compute_interest_coverage` of `analysis_formulas.py`:
`None` under the same guard, else `ebit / abs(interest_expense)` (no `*100`). -/
def compute_interest_coverage (ebit interest_expense : Option ℚ) : Option ℚ :=
  match ebit, interest_expense with
  | some e, some i =>
      if i = 0 then none else some (e / |i|)
  | _, _ => none

/-- `classify_metric` of `analysis_formulas.py`.  The source checks
`value is None` first and returns `"gray"`; only then does it evaluate
`thresholds.get ("inverted", False)`, which raises `AttributeError` when
`thresholds` is `None`.  The comparison chain is the source's
`if value >= exc / elif value >= gd / else` (reversed when inverted). -/
def classify_metric {α : Type} [LinearOrder α] (value : Option α)
    (thresholds : Option (ThresholdSpec α)) : Except String Classification :=
  match value with
  | none => Except.ok Classification.gray
  | some v =>
    match thresholds with
    | none => Except.error ("AttributeError")
    | some t =>
      if t.inverted = false then
        if t.excellent ≤ v then Except.ok Classification.green
        else if t.good ≤ v then Except.ok Classification.yellow
        else Except.ok Classification.red
      else
        if v ≤ t.excellent then Except.ok Classification.green
        else if v ≤ t.good then Except.ok Classification.yellow
        else Except.ok Classification.red

/-- The dict `ANALYSIS_THRESHOLDS` of `analysis_config.py`, entry for entry.
A Python value `None` is `none`; every dict-literal entry omits `"inverted"`
except `RDtoRevenueRatio`, `PersonnelExpense` and `DebtRatio`. -/
def ANALYSIS_THRESHOLDS : List (String × Option (ThresholdSpec ℚ)) :=
  [ ("Revenue", some ⟨10000000000, 500000000, false⟩)
  , ("RevenueGrowth", some ⟨15, 5, false⟩)
  , ("GrossProfit", none)
  , ("GrossProfitGrowth", none)
  , ("GrossProfitMargin", some ⟨25, 15, false⟩)
  , ("GrossProfitMarginGrowth", none)
  , ("EBIT", none)
  , ("EBITGrowth", none)
  , ("EBITMargin", some ⟨15, 6, false⟩)
  , ("EBITMarginGrowth", none)
  , ("InterestCoverage", some ⟨20, 5, false⟩)
  , ("InterestCoverageGrowth", none)
  , ("NetIncome", none)
  , ("NetIncomeGrowth", none)
  , ("NetIncomeMargin", some ⟨20, 5, false⟩)
  , ("NetIncomeMarginGrowth", none)
  , ("RDtoRevenueRatio", some ⟨7, 20, true⟩)
  , ("RDtoRevenueRatioGrowth", none)
  , ("PersonnelExpense", some ⟨30, 50, true⟩)
  , ("PersonnelExpenseGrowth", none)
  , ("CurrentAssets", none)
  , ("CurrentAssetsGrowth", none)
  , ("TotalAssets", none)
  , ("TotalAssetsGrowth", none)
  , ("CurrentLiabilities", none)
  , ("CurrentLiabilitiesGrowth", none)
  , ("TotalLiabilities", none)
  , ("TotalLiabilitiesGrowth", none)
  , ("WorkingCapital", none)
  , ("WorkingCapitalGrowth", none)
  , ("CurrentRatio", some ⟨3, 1, false⟩)
  , ("CurrentRatioGrowth", none)
  , ("Equity", none)
  , ("EquityGrowth", none)
  , ("ReturnOnEquity", some ⟨15, 8, false⟩)
  , ("ReturnOnEquityGrowth", none)
  , ("EquityRatio", some ⟨70, 30, false⟩)
  , ("EquityRatioGrowth", none)
  , ("DebtRatio", some ⟨20, 40, true⟩)
  , ("DebtRatioGrowth", none)
  , ("Dividends", none)
  , ("DividendsGrowth", none)
  , ("DividendsToShare", some ⟨5, 2, false⟩)
  , ("DividendsToShareGrowth", none)
  , ("OperatingCashFlow", none)
  , ("OperatingCashFlowGrowth", none)
  , ("OperatingCashFlowMargin", some ⟨15, 5, false⟩)
  , ("OperatingCashFlowMarginGrowth", none)
  ]

/-- Dict-key access `ANALYSIS_THRESHOLDS[key]`.  Every key used by the
builders is present in the dict, so a `KeyError` never occurs and the
lookup collapses to the stored value (`none` for the `None` entries). -/
def thresholdLookup (key : String) : Option (ThresholdSpec ℚ) :=
  match ANALYSIS_THRESHOLDS.lookup key with
  | some v => v
  | none => none

/-- A financial-statement DataFrame: `ncols` period columns (newest first,
identified by their position `0, 1, 2, …` as the builders only ever use
positional access into `list(df.columns)`), and a list of labelled rows.
A stored `none` models a NaN cell, which `safe_val` maps to `None`. -/
structure Statement where
  ncols : ℕ
  data : List (String × List (Option ℚ))

/-- `safe_val` of `analysis_utils.py`: `None` when the frame is empty, and
`None` instead of any exception from `df.loc[row_label, col_label]` (missing
label, missing column, `col_label is None`) or from a NaN cell. -/
def safe_val (df : Statement) (row_label : String) (col_label : Option ℕ) : Option ℚ :=
  if df.ncols = 0 ∨ df.data = [] then none
  else
    match col_label with
    | none => none
    | some i =>
      if i < df.ncols then
        match df.data.lookup row_label with
        | none => none
        | some vals =>
          match vals.get? i with
          | none => none
          | some v => v
      else none

/-- Python list indexing `l[i]`, which raises `IndexError` out of range. -/
def pyIndex {α : Type} (l : List α) (i : ℕ) : Except String α :=
  match l.get? i with
  | some x => Except.ok x
  | none => Except.error ("IndexError")

/-- The guard pattern `x and y and y != 0` used for the inline Current
Ratio, Equity Ratio and Debt Ratio in `analysis_table_balance.py`: Python
truthiness makes a present `0.0` in either position falsy (and makes the
trailing `y != 0` redundant), so the ratio `x / abs(y)` is computed only
when both operands are present and nonzero. -/
def truthyRatio (num den : Option ℚ) : Option ℚ :=
  match num, den with
  | some a, some b => if a ≠ 0 ∧ b ≠ 0 then some (a / |b|) else none
  | _, _ => none

/-- Same guard followed by `* 100` (Equity Ratio and Debt Ratio blocks). -/
def truthyRatio100 (num den : Option ℚ) : Option ℚ :=
  match num, den with
  | some a, some b => if a ≠ 0 ∧ b ≠ 0 then some ((a / |b|) * 100) else none
  | _, _ => none

/-- The ROE guard of `analysis_table_balance.py` lines 229–236:
`if eq and eq != 0 and ni is not None: roe = (ni / abs(eq)) * 100.0`
(the numerator is checked with `is not None`, so a zero numerator is kept). -/
def roeValue (ni eq : Option ℚ) : Option ℚ :=
  match eq with
  | none => none
  | some e =>
    if e = 0 then none
    else
      match ni with
      | none => none
      | some n => some ((n / |e|) * 100)

/-- The Operating-Cash-Flow-margin guard of `analysis_table_cashflow.py`
lines 109–116: `if ocf is not None and rev and rev != 0:
margin = (ocf / abs(rev)) * 100.0`. -/
def cfMarginValue (ocf rev : Option ℚ) : Option ℚ :=
  match ocf, rev with
  | some o, some r => if r ≠ 0 then some ((o / |r|) * 100) else none
  | _, _ => none

/-- One appended row dict: metric label, the three numeric cells, and a
color classification per numeric cell. -/
structure AnalysisRow where
  metric : String
  latestValue : Option ℚ
  growth1y : Option ℚ
  cagr3y : Option ℝ
  color : Classification
  color1y : Classification
  color3y : Classification

/-- Outcome of a builder call: the explicit "not enough data columns"
warning-and-return (fewer than 2 columns in the primary statement), an
uncaught Python exception, or the list of built rows. -/
inductive BuildResult where
  | insufficient : BuildResult
  | error : String → BuildResult
  | built : List AnalysisRow → BuildResult

/-- Threshold specs are stored as floats; classifying a real-valued CAGR
against them uses the same numbers read at real type. -/
def specToReal (s : ThresholdSpec ℚ) : ThresholdSpec ℝ :=
  ⟨(s.excellent : ℝ), (s.good : ℝ), s.inverted⟩

/-- The local helper `get_growth_metrics(row_label)` shared by the builders:
fetch latest / 1-back / 3-back via `safe_val`, then the two growth figures.
Returns `(value_now, growth_1y, cagr_3y)`. -/
noncomputable def getGrowthMetrics (df : Statement) (latest : ℕ)
    (col1 col3 : Option ℕ) (row_label : String) :
    Option ℚ × Option ℚ × Option ℝ :=
  let val_now := safe_val df row_label (some latest)
  let val_1y := safe_val df row_label col1
  let val_3y := safe_val df row_label col3
  (val_now, compute_growth_1y val_now val_1y, compute_cagr_3y val_now val_3y)

/-- The local helper `calc_growth_metrics(val_now, val_1, val_3)` shared by
the builders: growth figures from already-computed values. -/
noncomputable def calcGrowthMetrics (val_now val_1 val_3 : Option ℚ) :
    Option ℚ × Option ℚ × Option ℝ :=
  (val_now, compute_growth_1y val_now val_1, compute_cagr_3y val_now val_3)

/-- The repeated raw-line-item block of the builders: fetch the three
values via `get_growth_metrics`, classify the latest value against its main
key and each growth figure against the `*Growth` key, append one row. -/
noncomputable def simpleRow (df : Statement) (latest : ℕ) (col1 col3 : Option ℕ)
    (label metricName keyMain keyGrowth : String) : Except String AnalysisRow := do
  let m := getGrowthMetrics df latest col1 col3 label
  let c ← classify_metric m.1 (thresholdLookup keyMain)
  let c1 ← classify_metric m.2.1 (thresholdLookup keyGrowth)
  let c3 ← classify_metric m.2.2 ((thresholdLookup keyGrowth).map specToReal)
  pure ⟨metricName, m.1, m.2.1, m.2.2, c, c1, c3⟩

/-- Body of `build_balance_analysis_table` after the column-count guard,
block for block in source order; any uncaught exception aborts the body. -/
noncomputable def balanceBody (balance_df income_df : Statement) :
    Except String (List AnalysisRow) := do
  let bal_cols := List.range balance_df.ncols
  let inc_cols := List.range income_df.ncols
  let latest_col ← pyIndex bal_cols 0
  let col_1y := if 2 ≤ bal_cols.length then bal_cols.get? 1 else none
  let col_3y := if 4 ≤ bal_cols.length then bal_cols.get? 3 else none
  -- 1) Current Assets (€)
  let row1 ← simpleRow balance_df latest_col col_1y col_3y ("Current Assets")
    ("Current Assets (€)") ("CurrentAssets") ("CurrentAssetsGrowth")
  -- 2) Total Assets (€)
  let row2 ← simpleRow balance_df latest_col col_1y col_3y ("Total Assets")
    ("Total Assets (€)") ("TotalAssets") ("TotalAssetsGrowth")
  -- 3) Current Liabilities (€)
  let row3 ← simpleRow balance_df latest_col col_1y col_3y ("Current Liabilities")
    ("Current Liabilities (€)") ("CurrentLiabilities") ("CurrentLiabilitiesGrowth")
  -- 4) Total Liabilities (€)
  let row4 ← simpleRow balance_df latest_col col_1y col_3y
    ("Total Liabilities Net Minority Interest")
    ("Total Liabilities (€)") ("TotalLiabilities") ("TotalLiabilitiesGrowth")
  -- 5) Working Capital (€)
  let row5 ← simpleRow balance_df latest_col col_1y col_3y ("Working Capital")
    ("Working Capital (€)") ("WorkingCapital") ("WorkingCapitalGrowth")
  -- 6) Current Ratio (#): source lines 164–193
  let c6 ← pyIndex bal_cols 0
  let ca_latest := safe_val balance_df ("Current Assets") (some c6)
  let cl_latest := safe_val balance_df ("Current Liabilities") (some c6)
  let cr_now := truthyRatio ca_latest cl_latest
  let ca_1 := if 1 < bal_cols.length
    then safe_val balance_df ("Current Assets") (bal_cols.get? 1) else none
  let cl_1 := if 1 < bal_cols.length
    then safe_val balance_df ("Current Liabilities") (bal_cols.get? 1) else none
  let cr_1 := truthyRatio ca_1 cl_1
  let ca_3 := if 3 < bal_cols.length
    then safe_val balance_df ("Current Assets") (bal_cols.get? 3) else none
  let cl_3 := if 3 < bal_cols.length
    then safe_val balance_df ("Current Liabilities") (bal_cols.get? 3) else none
  let cr_3 := truthyRatio ca_3 cl_3
  let gcr := calcGrowthMetrics cr_now cr_1 cr_3
  let cr_class ← classify_metric cr_now (thresholdLookup ("CurrentRatio"))
  -- source passes the prior-period ratio values cr_1 / cr_3, not the growth
  let cr_class_1y ← classify_metric cr_1 (thresholdLookup ("CurrentRatioGrowth"))
  let cr_class_3y ← classify_metric cr_3 (thresholdLookup ("CurrentRatioGrowth"))
  let row6 : AnalysisRow :=
    ⟨"Current Ratio (#)", cr_now, gcr.2.1, gcr.2.2, cr_class, cr_class_1y, cr_class_3y⟩
  -- 7) Common Stock Equity (€)
  let row7 ← simpleRow balance_df latest_col col_1y col_3y ("Common Stock Equity")
    ("Equity (€)") ("Equity") ("EquityGrowth")
  -- 8) Return on Equity (%): source lines 214–257
  let i8 ← pyIndex inc_cols 0
  let ni_now := safe_val income_df ("Net Income") (some i8)
  let ni_1y := safe_val income_df ("Net Income")
    (if 2 ≤ inc_cols.length then inc_cols.get? 1 else none)
  let ni_3y := safe_val income_df ("Net Income")
    (if 4 ≤ inc_cols.length then inc_cols.get? 3 else none)
  let b8 ← pyIndex bal_cols 0
  let eq_now := safe_val balance_df ("Common Stock Equity") (some b8)
  let eq_1y := safe_val balance_df ("Common Stock Equity")
    (if 2 ≤ bal_cols.length then bal_cols.get? 1 else none)
  let eq_3y := safe_val balance_df ("Common Stock Equity")
    (if 4 ≤ bal_cols.length then bal_cols.get? 3 else none)
  let roe_now := roeValue ni_now eq_now
  let roe_1 := roeValue ni_1y eq_1y
  let roe_3 := roeValue ni_3y eq_3y
  let groe := calcGrowthMetrics roe_now roe_1 roe_3
  let roe_class ← classify_metric roe_now (thresholdLookup ("ReturnOnEquity"))
  let roe_class_1y ← classify_metric groe.2.1 (thresholdLookup ("ReturnOnEquityGrowth"))
  let roe_class_3y ← classify_metric groe.2.2
    ((thresholdLookup ("ReturnOnEquityGrowth")).map specToReal)
  let row8 : AnalysisRow :=
    ⟨"Return on Equity (%)", roe_now, groe.2.1, groe.2.2, roe_class, roe_class_1y, roe_class_3y⟩
  -- 9) Equity Ratio (%): source lines 259–286
  let b9 ← pyIndex bal_cols 0
  let eq_c0 := safe_val balance_df ("Common Stock Equity") (some b9)
  let ta_c0 := safe_val balance_df ("Total Assets") (some b9)
  let eq_ratio_now := truthyRatio100 eq_c0 ta_c0
  let eq_c1 := if 1 < bal_cols.length
    then safe_val balance_df ("Common Stock Equity") (bal_cols.get? 1) else none
  let ta_c1 := if 1 < bal_cols.length
    then safe_val balance_df ("Total Assets") (bal_cols.get? 1) else none
  let eq_ratio_1 := truthyRatio100 eq_c1 ta_c1
  let eq_c3 := if 3 < bal_cols.length
    then safe_val balance_df ("Common Stock Equity") (bal_cols.get? 3) else none
  let ta_c3 := if 3 < bal_cols.length
    then safe_val balance_df ("Total Assets") (bal_cols.get? 3) else none
  let eq_ratio_3 := truthyRatio100 eq_c3 ta_c3
  let geq := calcGrowthMetrics eq_ratio_now eq_ratio_1 eq_ratio_3
  let eq_ratio_class ← classify_metric eq_ratio_now (thresholdLookup ("EquityRatio"))
  -- source passes the prior-period ratio values, not the growth
  let eq_ratio_class_1y ← classify_metric eq_ratio_1 (thresholdLookup ("EquityRatioGrowth"))
  let eq_ratio_class_3y ← classify_metric eq_ratio_3 (thresholdLookup ("EquityRatioGrowth"))
  let row9 : AnalysisRow :=
    ⟨"Equity Ratio (%)", eq_ratio_now, geq.2.1, geq.2.2,
      eq_ratio_class, eq_ratio_class_1y, eq_ratio_class_3y⟩
  -- 10) Dept Ratio (Gearing) (%): source lines 288–315
  let b10 ← pyIndex bal_cols 0
  let tl_0 := safe_val balance_df ("Total Liabilities Net Minority Interest") (some b10)
  let eq_0 := safe_val balance_df ("Common Stock Equity") (some b10)
  let d_ratio_now := truthyRatio100 tl_0 eq_0
  let tl_1 := if 1 < bal_cols.length
    then safe_val balance_df ("Total Liabilities Net Minority Interest") (bal_cols.get? 1)
    else none
  let eq_1 := if 1 < bal_cols.length
    then safe_val balance_df ("Common Stock Equity") (bal_cols.get? 1) else none
  let d_ratio_1 := truthyRatio100 tl_1 eq_1
  let tl_3 := if 3 < bal_cols.length
    then safe_val balance_df ("Total Liabilities Net Minority Interest") (bal_cols.get? 3)
    else none
  let eq_3 := if 3 < bal_cols.length
    then safe_val balance_df ("Common Stock Equity") (bal_cols.get? 3) else none
  let d_ratio_3 := truthyRatio100 tl_3 eq_3
  let gd := calcGrowthMetrics d_ratio_now d_ratio_1 d_ratio_3
  let d_ratio_class ← classify_metric d_ratio_now (thresholdLookup ("DebtRatio"))
  -- this block classifies the growth figures (matching ROE, unlike 6 and 9)
  let d_ratio_class_1y ← classify_metric gd.2.1 (thresholdLookup ("DebtRatioGrowth"))
  let d_ratio_class_3y ← classify_metric gd.2.2
    ((thresholdLookup ("DebtRatioGrowth")).map specToReal)
  let row10 : AnalysisRow :=
    ⟨"Dept Ratio (Gearing) (%)", d_ratio_now, gd.2.1, gd.2.2,
      d_ratio_class, d_ratio_class_1y, d_ratio_class_3y⟩
  pure [row1, row2, row3, row4, row5, row6, row7, row8, row9, row10]

/-- `build_balance_analysis_table(balance_df, income_df)`: warn and return
when `len(list(balance_df.columns)) < 2`, else run the row blocks. -/
noncomputable def build_balance_analysis_table (balance_df income_df : Statement) :
    BuildResult :=
  if (List.range balance_df.ncols).length < 2 then BuildResult.insufficient
  else
    match balanceBody balance_df income_df with
    | Except.ok rows => BuildResult.built rows
    | Except.error e => BuildResult.error e

/-- The local helper `get_all_metrics(row_label)` of
`analysis_table_income.py`: indices 0 and 1 are accessed unguarded (raising
`IndexError` when out of range), indices 2 and 3 behind length guards. -/
def getAllMetrics (df : Statement) (cols : List ℕ) (row_label : String) :
    Except String (Option ℚ × Option ℚ × Option ℚ × Option ℚ) := do
  let c0 ← pyIndex cols 0
  let c1 ← pyIndex cols 1
  let latest_0 := safe_val df row_label (some c0)
  let latest_1 := safe_val df row_label (some c1)
  let latest_2 := if 2 < cols.length then safe_val df row_label (cols.get? 2) else none
  let latest_3 := if 3 < cols.length then safe_val df row_label (cols.get? 3) else none
  pure (latest_0, latest_1, latest_2, latest_3)

/-- The repeated derived-margin block of `build_income_analysis_table`
(Gross-Profit-Margin, EBIT Margin, Net Income Margin, R&D to Revenue,
Personell Expense): margins at indices 0/1/3 over `Total Revenue`, growth
from them — and the 1Y/3Y classifications are applied to the prior-period
margin values `m_1` / `m_3`, not to the growth figures. -/
noncomputable def marginRow (df : Statement) (cols : List ℕ)
    (numLabel metricName keyMain keyGrowth : String) : Except String AnalysisRow := do
  let a ← getAllMetrics df cols numLabel
  let r ← getAllMetrics df cols ("Total Revenue")
  let m_now := compute_margin a.1 r.1
  let m_1 := compute_margin a.2.1 r.2.1
  let m_3 := compute_margin a.2.2.2 r.2.2.2
  let g := calcGrowthMetrics m_now m_1 m_3
  let c ← classify_metric m_now (thresholdLookup keyMain)
  let c1 ← classify_metric m_1 (thresholdLookup keyGrowth)
  let c3 ← classify_metric m_3 (thresholdLookup keyGrowth)
  pure ⟨metricName, m_now, g.2.1, g.2.2, c, c1, c3⟩

/-- Body of `build_income_analysis_table` after the column-count guard. -/
noncomputable def incomeBody (income_df : Statement) :
    Except String (List AnalysisRow) := do
  let inc_cols := List.range income_df.ncols
  let latest_col ← pyIndex inc_cols 0
  let prev_col := if 2 ≤ inc_cols.length then inc_cols.get? 1 else none
  let old_3y_col := if 4 ≤ inc_cols.length then inc_cols.get? 3 else none
  -- 1) Revenue ($)
  let row1 ← simpleRow income_df latest_col prev_col old_3y_col ("Total Revenue")
    ("Revenue ($)") ("Revenue") ("RevenueGrowth")
  -- 2) Gross-Profit ($)
  let row2 ← simpleRow income_df latest_col prev_col old_3y_col ("Gross Profit")
    ("Gross-Profit ($)") ("GrossProfit") ("GrossProfitGrowth")
  -- 3) Gross-Profit-Margin (%)
  let row3 ← marginRow income_df inc_cols ("Gross Profit")
    ("Gross-Profit-Margin (%)") ("GrossProfitMargin") ("GrossProfitMarginGrowth")
  -- 4) EBIT ($)
  let row4 ← simpleRow income_df latest_col prev_col old_3y_col ("EBIT")
    ("EBIT ($)") ("EBIT") ("EBITGrowth")
  -- 5) EBIT Margin (%)
  let row5 ← marginRow income_df inc_cols ("EBIT")
    ("EBIT Margin (%)") ("EBITMargin") ("EBITMarginGrowth")
  -- 6) Interest Coverage Ratio (#): source lines 182–207
  let e6 ← getAllMetrics income_df inc_cols ("EBIT")
  let i6 ← getAllMetrics income_df inc_cols ("Interest Expense")
  let coverage_now := compute_interest_coverage e6.1 i6.1
  let coverage_1 := compute_interest_coverage e6.2.1 i6.2.1
  let coverage_3 := compute_interest_coverage e6.2.2.2 i6.2.2.2
  let gcov := calcGrowthMetrics coverage_now coverage_1 coverage_3
  let coverage_class ← classify_metric coverage_now (thresholdLookup ("InterestCoverage"))
  -- source passes the prior-period coverage values, not the growth
  let coverage_class_1y ← classify_metric coverage_1
    (thresholdLookup ("InterestCoverageGrowth"))
  let coverage_class_3y ← classify_metric coverage_3
    (thresholdLookup ("InterestCoverageGrowth"))
  let row6 : AnalysisRow :=
    ⟨"Interest coverage ratio (#)", coverage_now, gcov.2.1, gcov.2.2,
      coverage_class, coverage_class_1y, coverage_class_3y⟩
  -- 7) Net Income ($)
  let row7 ← simpleRow income_df latest_col prev_col old_3y_col ("Net Income")
    ("Net Income ($)") ("NetIncome") ("NetIncomeGrowth")
  -- 8) Net Income Margin (%)
  let row8 ← marginRow income_df inc_cols ("Net Income")
    ("Net Income Margin (%)") ("NetIncomeMargin") ("NetIncomeMarginGrowth")
  -- 9) R&D to Revenue Ratio (%)
  let row9 ← marginRow income_df inc_cols ("Research And Development")
    ("R&D to Revenue Ratio (%)") ("RDtoRevenueRatio") ("RDtoRevenueRatioGrowth")
  -- 10) Personell Expense (%)
  let row10 ← marginRow income_df inc_cols ("Selling General And Administration")
    ("Personell Expense (%)") ("PersonnelExpense") ("PersonnelExpenseGrowth")
  pure [row1, row2, row3, row4, row5, row6, row7, row8, row9, row10]

/-- `build_income_analysis_table(income_df)`: warn and return when
`len(list(income_df.columns)) < 2`, else run the row blocks. -/
noncomputable def build_income_analysis_table (income_df : Statement) : BuildResult :=
  if (List.range income_df.ncols).length < 2 then BuildResult.insufficient
  else
    match incomeBody income_df with
    | Except.ok rows => BuildResult.built rows
    | Except.error e => BuildResult.error e

/-- Body of `build_cashflow_analysis_table` after the column-count guard. -/
noncomputable def cashflowBody (cashflow_df income_df : Statement) :
    Except String (List AnalysisRow) := do
  let cf_cols := List.range cashflow_df.ncols
  let inc_cols := List.range income_df.ncols
  let latest_col ← pyIndex cf_cols 0
  let col_1y := if 2 ≤ cf_cols.length then cf_cols.get? 1 else none
  let col_3y := if 4 ≤ cf_cols.length then cf_cols.get? 3 else none
  -- 1) Operating Cash Flow (€)
  let row1 ← simpleRow cashflow_df latest_col col_1y col_3y ("Operating Cash Flow")
    ("Operating Cashflow (€)") ("OperatingCashFlow") ("OperatingCashFlowGrowth")
  -- 2) Operating Cashflow Margin (%): source lines 90–136
  let c2 ← pyIndex cf_cols 0
  let ocf_now := safe_val cashflow_df ("Operating Cash Flow") (some c2)
  let ocf_1y := if 1 < cf_cols.length
    then safe_val cashflow_df ("Operating Cash Flow") (cf_cols.get? 1) else none
  let ocf_3y := if 3 < cf_cols.length
    then safe_val cashflow_df ("Operating Cash Flow") (cf_cols.get? 3) else none
  let i2 ← pyIndex inc_cols 0
  let rev_now := safe_val income_df ("Total Revenue") (some i2)
  let rev_1y := if 1 < inc_cols.length
    then safe_val income_df ("Total Revenue") (inc_cols.get? 1) else none
  let rev_3y := if 3 < inc_cols.length
    then safe_val income_df ("Total Revenue") (inc_cols.get? 3) else none
  let ocf_margin_now := cfMarginValue ocf_now rev_now
  let ocf_margin_1 := cfMarginValue ocf_1y rev_1y
  let ocf_margin_3 := cfMarginValue ocf_3y rev_3y
  let gm := calcGrowthMetrics ocf_margin_now ocf_margin_1 ocf_margin_3
  let m_class ← classify_metric ocf_margin_now (thresholdLookup ("OperatingCashFlowMargin"))
  -- this block classifies the growth figures themselves
  let m_class_1y ← classify_metric gm.2.1 (thresholdLookup ("OperatingCashFlowMarginGrowth"))
  let m_class_3y ← classify_metric gm.2.2
    ((thresholdLookup ("OperatingCashFlowMarginGrowth")).map specToReal)
  let row2 : AnalysisRow :=
    ⟨"Operating Cashflow Margin (%)", ocf_margin_now, gm.2.1, gm.2.2,
      m_class, m_class_1y, m_class_3y⟩
  pure [row1, row2]

/-- `build_cashflow_analysis_table(cashflow_df, income_df)`: warn and
return when `len(list(cashflow_df.columns)) < 2`, else run the blocks. -/
noncomputable def build_cashflow_analysis_table (cashflow_df income_df : Statement) :
    BuildResult :=
  if (List.range cashflow_df.ncols).length < 2 then BuildResult.insufficient
  else
    match cashflowBody cashflow_df income_df with
    | Except.ok rows => BuildResult.built rows
    | Except.error e => BuildResult.error e

/-- Python `int(value)` on a float: truncation toward zero. -/
def pyInt (q : ℚ) : ℤ :=
  if q < 0 then ⌈q⌉ else ⌊q⌋

/-- Digits with the thousands separator of the format spec `:,`: a comma
before every position whose distance from the end is a positive multiple
of three.  Input is the digit list, most significant first. -/
def commaSepDigits (ds : List Char) : List Char :=
  ds.enum.flatMap (fun p => if p.1 ≠ 0 ∧ (ds.length - p.1) % 3 = 0 then [',', p.2] else [p.2])

/-- The f-string `f"{z:,}"` on an integer. -/
def intWithCommas (z : ℤ) : String :=
  (if z < 0 then "-" else "") ++ String.mk (commaSepDigits (Nat.toDigits 10 z.natAbs))

/-- The f-string `f"{v:.2f}"`: nearest-integer rounding of `100 v`, then
integer part, dot, zero-padded fractional part.  (The sign of a negative
value that rounds to zero is not modelled.) -/
def twoDecimals (v : ℚ) : String :=
  let n : ℤ := round (v * 100)
  let a : ℕ := n.natAbs
  (if n < 0 then "-" else "") ++ String.mk (Nat.toDigits 10 (a / 100)) ++ "." ++
    (if a % 100 < 10 then "0" else "") ++ String.mk (Nat.toDigits 10 (a % 100))

/-- `format_cell` of `analysis_utils.py`: `None` (or NaN, which the exact
rational model cannot represent and which `safe_val` already maps to
`None`) gives `"n/a"`; a metric name containing `€` or `$` gives
`f"{int(value):,}"` plus that suffix; else `%` gives `f"{value:.2f}%"`;
else `f"{value:.2f}"`. -/
def format_cell (value : Option ℚ) (metric_name : String) : String :=
  match value with
  | none => "n/a"
  | some v =>
    if metric_name.toList.contains ('€') then intWithCommas (pyInt v) ++ "€"
    else if metric_name.toList.contains ('$') then intWithCommas (pyInt v) ++ "$"
    else if metric_name.toList.contains ('%') then twoDecimals v ++ "%"
    else twoDecimals v

/-- Truncation toward zero stated the spec's way, as sign times the floor
of the magnitude; used by `formatCellSpec` below. -/
def truncSpec (q : ℚ) : ℤ :=
  q.num.sign * ⌊|q|⌋

/-- The Display Formatter as the (amended) spec sentence reads: absent →
literal `"n/a"`; a unit hint containing a currency marker → the value
truncated toward zero, thousands-separated, with that currency suffix;
else containing `%` → fixed two-decimal percentage; else fixed two-decimal
plain number. -/
def formatCellSpec (value : Option ℚ) (u : String) : String :=
  match value with
  | none => "n/a"
  | some v =>
    match (if u.toList.contains ('€') then some ("€")
           else if u.toList.contains ('$') then some ("$") else none) with
    | some marker => intWithCommas (truncSpec v) ++ marker
    | none => if u.toList.contains ('%') then twoDecimals v ++ "%" else twoDecimals v

/-- C1: for every value and threshold spec, `classify(v, s)` returns `gray`
when `v` is absent (whatever `s` is), but when `v` is a present number and
`s` is absent — as for `GrossProfit` or `CurrentAssetsGrowth`, whose
entries in the static table are `None` — the source evaluates
`thresholds.get` on `None` and raises `AttributeError` instead of
returning `gray`, contradicting the claim. -/
theorem c1_classify_gray_or_raise :
    classify_metric (none : Option ℚ) (none : Option (ThresholdSpec ℚ)) =
      Except.ok Classification.gray ∧
    classify_metric (none : Option ℚ) (thresholdLookup ("Revenue")) =
      Except.ok Classification.gray ∧
    thresholdLookup ("GrossProfit") = none ∧
    thresholdLookup ("CurrentAssetsGrowth") = none ∧
    classify_metric (some (5 : ℚ)) (none : Option (ThresholdSpec ℚ)) =
      Except.error ("AttributeError") := by
  refine ⟨rfl, rfl, rfl, rfl, rfl⟩

/-- C3: `growth_one_period(now, prior)` is absent exactly when an operand
is absent or `prior = 0`, and otherwise equals
`((now - prior) / |prior|) * 100` exactly, including sign. -/
theorem c3_growth_1y_spec (value_now value_prev : Option ℚ) :
    (compute_growth_1y value_now value_prev = none ↔
      value_now = none ∨ value_prev = none ∨ value_prev = some 0) ∧
    (∀ n p : ℚ, value_now = some n → value_prev = some p → p ≠ 0 →
      compute_growth_1y value_now value_prev = some (((n - p) / |p|) * 100)) := by
  constructor
  · cases value_now with
    | none => simp [compute_growth_1y]
    | some n =>
      cases value_prev with
      | none => simp [compute_growth_1y]
      | some p =>
        by_cases hp : p = 0
        · subst hp; simp [compute_growth_1y]
        · simp [compute_growth_1y, hp]
  · intro n p hn hp hpz
    subst hn; subst hp
    simp [compute_growth_1y, hpz]

/-- C3 witness: the spec's end-to-end example `(110, 100) ↦ 10`. -/
theorem c3_growth_1y_witness :
    compute_growth_1y (some 110) (some 100) = some 10 := by
  have h := (c3_growth_1y_spec (some 110) (some 100)).2 110 100 rfl rfl (by norm_num)
  rw [h]
  norm_num

/-- C6: `compute_margin` maps a present zero numerator over a nonzero
denominator to the present value `0` — but the builders' inline ratios
(Current Ratio, Equity Ratio, Debt Ratio) guard with Python truthiness
`x and y and y != 0`, so the same operands yield an absent result there:
zero in numerator position IS confused with absence, contradicting the
claim for the inline ratios. -/
theorem c6_zero_numerator_confused_with_absent :
    compute_margin (some 0) (some 5) = some 0 ∧
    compute_interest_coverage (some 0) (some 5) = some 0 ∧
    truthyRatio (some 0) (some 5) = none ∧
    truthyRatio100 (some 0) (some 5) = none ∧
    roeValue (some 0) (some 5) = some 0 := by
  refine ⟨by norm_num [compute_margin], by norm_num [compute_interest_coverage],
    by norm_num [truthyRatio], by norm_num [truthyRatio100], by norm_num [roeValue]⟩

/-- C8: each builder, given a primary statement with fewer than 2 columns,
reports the single explicit "insufficient data" outcome and builds no
rows. -/
theorem c8_insufficient_columns (bal inc cf inc2 : Statement) :
    (bal.ncols < 2 → build_balance_analysis_table bal inc = BuildResult.insufficient) ∧
    (inc.ncols < 2 → build_income_analysis_table inc = BuildResult.insufficient) ∧
    (cf.ncols < 2 → build_cashflow_analysis_table cf inc2 = BuildResult.insufficient) := by
  refine ⟨fun h => ?_, fun h => ?_, fun h => ?_⟩ <;>
    simp [build_balance_analysis_table, build_income_analysis_table,
      build_cashflow_analysis_table, List.length_range, h]

/-- C8 witness: one-column (and zero-column) statements at each builder. -/
theorem c8_insufficient_columns_witness :
    build_balance_analysis_table ⟨1, []⟩ ⟨1, []⟩ = BuildResult.insufficient ∧
    build_income_analysis_table ⟨1, []⟩ = BuildResult.insufficient ∧
    build_cashflow_analysis_table ⟨0, []⟩ ⟨1, []⟩ = BuildResult.insufficient := by
  have h := c8_insufficient_columns ⟨1, []⟩ ⟨1, []⟩ ⟨0, []⟩ ⟨1, []⟩
  exact ⟨h.1 (by norm_num), h.2.1 (by norm_num), h.2.2 (by norm_num)⟩

/-- C2: the Statement Table Builder is claimed never to raise for missing
data — but a zero-column income statement makes the balance builder
evaluate the unguarded `inc_cols[0]` in its ROE block and raise
`IndexError` (only the balance statement's column count is checked),
instead of producing gray/"n/a" rows. -/
theorem c2_builder_raises_on_empty_income :
    build_balance_analysis_table ⟨2, []⟩ ⟨0, []⟩ = BuildResult.error ("IndexError") := by
  rfl

/-- C7: the growth columns are claimed to be classified on the computed
growth figures themselves.  The balance builder's Current Ratio block
instead passes the prior-period ratio value `cr_1` to the classifier:
on a statement whose latest column is empty but whose 1-back column has
Current Assets 5 and Current Liabilities 2, the code classifies the
present prior ratio `5/2` against the `None` CurrentRatioGrowth entry and
raises `AttributeError`, while classifying the (absent) growth figure as
the claim states would give `gray`. -/
theorem c7_growth_column_classifies_prior_value :
    build_balance_analysis_table
        ⟨2, [("Current Assets", [none, some 5]), ("Current Liabilities", [none, some 2])]⟩
        ⟨2, []⟩ = BuildResult.error ("AttributeError") ∧
    classify_metric
        (compute_growth_1y (truthyRatio none none) (truthyRatio (some 5) (some 2)))
        (thresholdLookup ("CurrentRatioGrowth")) = Except.ok Classification.gray := by
  exact ⟨rfl, rfl⟩

/-- C5 counterexample: the claim's characterization "red iff v < good"
fails for a (pathological) non-inverted spec whose cutoffs are not ordered
`good ≤ excellent`: with `excellent = 5`, `good = 10`, the value `7`
satisfies `v < good` yet the code returns `green`, because the `elif`
chain tests `v >= excellent` first. -/
theorem c5_red_iff_counterexample :
    classify_metric (some (7 : ℚ)) (some (⟨5, 10, false⟩ : ThresholdSpec ℚ)) =
      Except.ok Classification.green ∧ (7 : ℚ) < 10 := by
  exact ⟨rfl, by norm_num⟩

/-- C5 (amended): for present value and present spec whose cutoffs are
ordered consistently with the polarity (`good ≤ excellent` when not
inverted, `excellent ≤ good` when inverted — true of every spec in the
static table), the classifier is exactly the claimed three-bucket map,
with ties on a cutoff landing in the better bucket. -/
theorem c5_classify_buckets (v : ℚ) (s : ThresholdSpec ℚ) :
    (s.inverted = false → s.good ≤ s.excellent →
      ((classify_metric (some v) (some s) = Except.ok Classification.green ↔
          s.excellent ≤ v) ∧
       (classify_metric (some v) (some s) = Except.ok Classification.yellow ↔
          s.good ≤ v ∧ v < s.excellent) ∧
       (classify_metric (some v) (some s) = Except.ok Classification.red ↔
          v < s.good))) ∧
    (s.inverted = true → s.excellent ≤ s.good →
      ((classify_metric (some v) (some s) = Except.ok Classification.green ↔
          v ≤ s.excellent) ∧
       (classify_metric (some v) (some s) = Except.ok Classification.yellow ↔
          s.excellent < v ∧ v ≤ s.good) ∧
       (classify_metric (some v) (some s) = Except.ok Classification.red ↔
          s.good < v))) := by
  obtain ⟨e, g, inv⟩ := s
  constructor
  · rintro rfl hge
    have hc : classify_metric (some v) (some (⟨e, g, false⟩ : ThresholdSpec ℚ)) =
        (if e ≤ v then Except.ok Classification.green
         else if g ≤ v then Except.ok Classification.yellow
         else Except.ok Classification.red) := rfl
    simp only at hge
    refine ⟨?_, ?_, ?_⟩
    · rw [hc]; split_ifs with h1 h2 <;> simp [h1]
    · rw [hc]; split_ifs with h1 h2
      · simp [not_lt.mpr h1]
      · simp [h2, not_le.mp h1]
      · simp [h2]
    · rw [hc]; split_ifs with h1 h2
      · simp [not_lt.mpr (le_trans hge h1)]
      · simp [not_lt.mpr h2]
      · simp [not_le.mp h2]
  · rintro rfl hge
    have hc : classify_metric (some v) (some (⟨e, g, true⟩ : ThresholdSpec ℚ)) =
        (if v ≤ e then Except.ok Classification.green
         else if v ≤ g then Except.ok Classification.yellow
         else Except.ok Classification.red) := rfl
    simp only at hge
    refine ⟨?_, ?_, ?_⟩
    · rw [hc]; split_ifs with h1 h2 <;> simp [h1]
    · rw [hc]; split_ifs with h1 h2
      · simp [not_lt.mpr h1]
      · simp [h2, not_le.mp h1]
      · simp [h2]
    · rw [hc]; split_ifs with h1 h2
      · simp [not_lt.mpr (le_trans h1 hge)]
      · simp [not_lt.mpr h2]
      · simp [not_le.mp h2]

/-- C5 witness: the spec's boundary example — value exactly at the
excellent cutoff of `{excellent 20, good 5}` is green. -/
theorem c5_classify_buckets_witness :
    classify_metric (some (20 : ℚ)) (some (⟨20, 5, false⟩ : ThresholdSpec ℚ)) =
      Except.ok Classification.green := by
  exact (((c5_classify_buckets 20 ⟨20, 5, false⟩).1 rfl (by norm_num)).1).mpr (by norm_num)

/-- C4: the compound-growth function is absent exactly when an operand is
absent or `past = 0`; otherwise it equals
`((|now| / |past|) ** (1/3) - 1) * 100` with `n_periods` hard-coded to 3
and the absolute value taken of BOTH operands before the ratio. -/
theorem c4_cagr_3y_spec (value_now value_3yr : Option ℚ) :
    (compute_cagr_3y value_now value_3yr = none ↔
      value_now = none ∨ value_3yr = none ∨ value_3yr = some 0) ∧
    (∀ n p : ℚ, value_now = some n → value_3yr = some p → p ≠ 0 →
      compute_cagr_3y value_now value_3yr =
        some (((|(n : ℝ)| / |(p : ℝ)|) ^ ((1 : ℝ) / 3) - 1) * 100)) := by
  constructor
  · cases value_now with
    | none => simp [compute_cagr_3y]
    | some n =>
      cases value_3yr with
      | none => simp [compute_cagr_3y]
      | some p =>
        by_cases hp : p = 0
        · subst hp; simp [compute_cagr_3y]
        · simp [compute_cagr_3y, hp]
  · intro n p hn hp hpz
    subst hn; subst hp
    simp only [compute_cagr_3y, if_neg hpz]
    push_cast
    ring_nf

/-- C4 witness: `(8, 1) ↦ ((8/1)^(1/3) - 1) * 100 = 100`. -/
theorem c4_cagr_3y_witness :
    compute_cagr_3y (some 8) (some 1) = some 100 := by
  have h := (c4_cagr_3y_spec (some 8) (some 1)).2 8 1 rfl rfl (by norm_num)
  rw [h]
  have hr : |((8 : ℚ) : ℝ)| / |((1 : ℚ) : ℝ)| = (8 : ℝ) := by norm_num
  have h8 : (8 : ℝ) = (2 : ℝ) ^ ((3 : ℕ) : ℝ) := by
    rw [Real.rpow_natCast]; norm_num
  have key : (8 : ℝ) ^ ((1 : ℝ) / 3) = 2 := by
    rw [h8, ← Real.rpow_mul (by norm_num : (0 : ℝ) ≤ 2)]
    rw [show ((3 : ℕ) : ℝ) * ((1 : ℝ) / 3) = 1 by norm_num, Real.rpow_one]
  rw [hr, key]
  norm_num

/-- C10: for present operands with `past ≠ 0` (a zero `now` is NOT guarded
against), the compound-growth function returns a present real that is at
least `-100`, with equality exactly when `now = 0`. -/
theorem c10_cagr_lower_bound (n p : ℚ) (hp : p ≠ 0) :
    ∃ r : ℝ, compute_cagr_3y (some n) (some p) = some r ∧
      -100 ≤ r ∧ (r = -100 ↔ n = 0) := by
  refine ⟨((((|n| / |p| : ℚ) : ℝ)) ^ ((1 : ℝ) / 3) - 1) * 100, ?_, ?_, ?_⟩
  · simp [compute_cagr_3y, hp]
  · have hq : (0 : ℝ) ≤ (((|n| / |p| : ℚ)) : ℝ) := by positivity
    have h3 := Real.rpow_nonneg hq ((1 : ℝ) / 3)
    linarith
  · have hq : (0 : ℝ) ≤ (((|n| / |p| : ℚ)) : ℝ) := by positivity
    constructor
    · intro h
      have h0 : (((|n| / |p| : ℚ)) : ℝ) ^ ((1 : ℝ) / 3) = 0 := by linarith
      have h1 := (Real.rpow_eq_zero hq (by norm_num : ((1 : ℝ) / 3) ≠ 0)).mp h0
      have h2 : (|n| / |p| : ℚ) = 0 := by exact_mod_cast h1
      rcases div_eq_zero_iff.mp h2 with h4 | h4
      · exact abs_eq_zero.mp h4
      · exact absurd h4 (abs_ne_zero.mpr hp)
    · intro h
      subst h
      simp only [abs_zero, zero_div, Rat.cast_zero]
      rw [Real.zero_rpow (by norm_num : ((1 : ℝ) / 3) ≠ 0)]
      norm_num

/-- C10 witness: `(0, 1) ↦ -100`, a present value, not absent. -/
theorem c10_cagr_lower_bound_witness :
    compute_cagr_3y (some (0 : ℚ)) (some (1 : ℚ)) = some (-100) := by
  obtain ⟨r, hr, hb, hiff⟩ := c10_cagr_lower_bound 0 1 (by norm_num)
  rw [hr, hiff.mpr rfl]

/-- C9 counterexample: the claim says the currency branch integer-ROUNDS,
but Python `int(value)` truncates toward zero: `3.5` formats as `"3€"`
although its nearest-integer rounding is `4`. -/
theorem c9_currency_truncates_counterexample :
    format_cell (some ((7 : ℚ) / 2)) ("Current Assets (€)") = "3€" ∧
    round ((7 : ℚ) / 2) = 4 := by
  have hfloor : pyInt ((7 : ℚ) / 2) = 3 := by
    rw [pyInt, if_neg (by norm_num)]
    exact Int.floor_eq_iff.mpr (by norm_num)
  constructor
  · simp only [format_cell]
    rw [if_pos (by decide : (("Current Assets (€)").toList.contains ('€')) = true), hfloor]
    rfl
  · rw [round_eq, show (7 : ℚ) / 2 + 1 / 2 = ((4 : ℤ) : ℚ) by norm_num, Int.floor_intCast]

/-- Python `int()` truncation equals sign times floor of the magnitude. -/
theorem pyInt_eq_truncSpec (q : ℚ) : pyInt q = truncSpec q := by
  rcases lt_trichotomy q 0 with h | h | h
  · have hs : q.num.sign = -1 := Int.sign_eq_neg_one_iff_neg.mpr (Rat.num_neg.mpr h)
    rw [pyInt, if_pos h, truncSpec, hs, abs_of_neg h, Int.floor_neg]
    ring
  · subst h
    simp [pyInt, truncSpec]
  · have hs : q.num.sign = 1 := Int.sign_eq_one_iff_pos.mpr (Rat.num_pos.mpr h)
    rw [pyInt, if_neg (not_lt.mpr h.le), truncSpec, hs, abs_of_pos h, one_mul]

/-- C9 (amended): the formatter behaves as claimed with the currency
branch truncating toward zero (Python `int()`) rather than rounding to
nearest: absent → `"n/a"`, currency marker → truncated, thousands-
separated value with the marker suffix (`€` checked before `$`), else
`%` → two-decimal percentage, else two-decimal plain number. -/
theorem c9_format_cell_follows_spec (value : Option ℚ) (u : String) :
    format_cell value u = formatCellSpec value u := by
  cases value with
  | none => rfl
  | some v =>
    simp only [format_cell, formatCellSpec, pyInt_eq_truncSpec v]
    by_cases h1 : '€' ∈ u.data
    · simp [h1]
    · by_cases h2 : '$' ∈ u.data
      · simp [h1, h2]
      · by_cases h3 : '%' ∈ u.data
        · simp [h1, h2, h3]
        · simp [h1, h2, h3]

end StockAnalysis
